import Mathlib

/-!
Verification of the RENART backend dynamic-pricing subsystem.

The development shallowly embeds the pricing core of the repository:

* `src/services/goldPriceService.js` — the gold-price oracle
  (`fetchGoldPrice`, `fetchFallbackPrice`, `startPeriodicUpdates`,
  `calculateProductPrice`);
* the product-listing read path of `src/controllers/favoritesController.js`
  and `src/controllers/userController.js` (`getProducts` /
  `getVendorProducts`), in particular the computed-price filter and its
  interaction with pagination.

Modelling conventions:

* JavaScript numbers are modelled as exact rationals (`ℚ`).  Every concrete
  input used in a theorem below keeps the floating-point computation far
  from any rounding boundary, so the rational value and the IEEE double
  value round to the same 2-decimal result.
* `Math.round` rounds half towards plus infinity; for a rational `x` it is
  `⌊x + 1/2⌋`.
* JavaScript truthiness of a possibly-absent numeric value (`undefined`,
  `0` and `NaN` are falsy) is modelled on `Option ℚ` by `none ↦ false`,
  `some q ↦ (q ≠ 0)`.  The model is restricted to numeric JSON payload
  fields; the query parameters `minPrice`/`maxPrice` reach the controllers
  as numbers because the Zod `productQuerySchema` transforms them with
  `.transform(Number)` before the handler runs.
* Network effects are made explicit: a `FetchEnv` records the response (or
  thrown failure, as `none`) that each configured source would produce, and
  the embedded fetch functions additionally report which requests they
  performed, so "no network activity" is a provable statement.
-/

namespace Renart

/-- JavaScript `Math.round` on the rationals: half-integers round up. -/
def jsRound (q : ℚ) : ℤ := ⌊q + 1 / 2⌋

/-- JS truthiness of a possibly-absent numeric value: `undefined` and `0`
are falsy, every other number is truthy. -/
def jsTruthy : Option ℚ → Bool
  | none => false
  | some q => decide (q ≠ 0)

/-!
## PricingFunction

`goldPriceService.js`, `calculateProductPrice(popularityScore, weight)`:

```js
const goldPricePerGram = this.currentGoldPrice / 31.1035; // Convert oz to grams
const price = (popularityScore + 1) * weight * goldPricePerGram;
return Math.round(price * 100) / 100; // Round to 2 decimal places
```

The cached `this.currentGoldPrice` is made an explicit first argument.
-/

/-- The intermediate `price` local of `calculateProductPrice`: the raw
(unrounded) product price.  The divisor is the literal `31.1035` from the
source. -/
def rawProductPrice (currentGoldPrice popularityScore weight : ℚ) : ℚ :=
  (popularityScore + 1) * weight * (currentGoldPrice / (31.1035 : ℚ))

/-- `calculateProductPrice` from `goldPriceService.js`, with the cached gold
price passed explicitly. -/
def calculateProductPrice (currentGoldPrice popularityScore weight : ℚ) : ℚ :=
  ((jsRound (rawProductPrice currentGoldPrice popularityScore weight * 100) : ℚ)) / 100

/-- The pricing formula in the shape the spec writes it (`pricePerGram`,
then `rawPrice`, then rounding to 2 decimals), parameterised by the
troy-ounce divisor so that the spec constant `31.1034768` and the source
constant `31.1035` can be compared. -/
def computePriceWithDivisor (divisor c p w : ℚ) : ℚ :=
  ((jsRound ((p + 1) * w * (c / divisor) * 100) : ℚ)) / 100

/-!
## ListingPriceDecorator

From `getProducts` in `favoritesController.js` and `getVendorProducts` in
`userController.js` (the two pipelines are line-for-line identical in the
modelled region).  The candidate set is the list of products matching all
database-side (non-price) filters, in the database sort order; the database
never sees the price, which is computed per request.
-/

/-- A catalog product record, restricted to the two fields the pricing read
path consumes. -/
structure Product where
  popularity_score : ℚ
  weight : ℚ
deriving DecidableEq

/-- A product record with the per-request `calculatedPrice` attached. -/
structure DecoratedProduct where
  popularity_score : ℚ
  weight : ℚ
  calculatedPrice : ℚ
deriving DecidableEq

/-- The decoration step `{...product, calculatedPrice}` of the listing
pipeline. -/
def decorateOne (goldPrice : ℚ) (p : Product) : DecoratedProduct :=
  ⟨p.popularity_score, p.weight, calculateProductPrice goldPrice p.popularity_score p.weight⟩

/-- `if (minPrice && price < minPrice) return false` from the price filter
predicate. -/
def belowMinPrice : Option ℚ → ℚ → Bool
  | none, _ => false
  | some m, price => decide (m ≠ 0) && decide (price < m)

/-- `if (maxPrice && price > maxPrice) return false` from the price filter
predicate. -/
def aboveMaxPrice : Option ℚ → ℚ → Bool
  | none, _ => false
  | some m, price => decide (m ≠ 0) && decide (m < price)

/-- The price filter predicate of the listing pipeline: a product is kept
unless a truthy bound excludes it. -/
def keepProduct (minPrice maxPrice : Option ℚ) (price : ℚ) : Bool :=
  !belowMinPrice minPrice price && !aboveMaxPrice maxPrice price

/-- The `minPrice || maxPrice` guard of the listing pipeline. -/
def priceFilterActive (minPrice maxPrice : Option ℚ) : Bool :=
  jsTruthy minPrice || jsTruthy maxPrice

/-- The price-filter stage: `if (minPrice || maxPrice) { filteredProducts =
productsWithPrices.filter(...) }`. -/
def applyPriceFilterStage (minPrice maxPrice : Option ℚ)
    (ps : List DecoratedProduct) : List DecoratedProduct :=
  if priceFilterActive minPrice maxPrice then
    ps.filter (fun dp => keepProduct minPrice maxPrice dp.calculatedPrice)
  else ps

/-- The response shape of the listing endpoints: the product page plus the
`pagination` metadata object. -/
structure ListingResponse where
  products : List DecoratedProduct
  page : ℕ
  limit : ℕ
  total : ℕ
  pages : ℕ
deriving DecidableEq

/-- The listing pipeline of `getProducts` / `getVendorProducts` over a
candidate set already filtered and sorted by the database:

1. `count` is taken over the whole candidate set (an exact count query);
2. the database applies `.range(offset, offset + limit - 1)` — pagination
   happens before any price is computed;
3. the fetched page is decorated with `calculatedPrice`;
4. if a price bound is truthy, the decorated page is filtered, `finalCount`
   becomes the length of that filtered page, and `.slice(startIndex,
   endIndex)` is applied a second time to the already-paged list;
5. `pages` is `Math.ceil(finalCount / limit)` (for `limit > 0` this is
   `(finalCount + limit - 1) / limit` in natural division).

The model takes `page ≥ 1` and `limit ≥ 1` (guaranteed by the
`productQuerySchema` defaults); the price re-sort of the final page is ignored
as it permutes the returned page without changing membership or counts. -/
def getProducts (goldPrice : ℚ) (candidates : List Product) (page limit : ℕ)
    (minPrice maxPrice : Option ℚ) : ListingResponse :=
  let count := candidates.length
  let offset := (page - 1) * limit
  let fetched := (candidates.drop offset).take limit
  let productsWithPrices := fetched.map (decorateOne goldPrice)
  let filteredProducts := applyPriceFilterStage minPrice maxPrice productsWithPrices
  let finalCount := if priceFilterActive minPrice maxPrice then filteredProducts.length else count
  let finalProducts :=
    if priceFilterActive minPrice maxPrice then (filteredProducts.drop offset).take limit
    else filteredProducts
  ⟨finalProducts, page, limit, finalCount, (finalCount + limit - 1) / limit⟩

/-- Concrete 25-product candidate set for the price-filter pagination
property.  With the gold price pinned at `31.1035` the price per gram is 1
and every product has popularity 0, so the computed price equals the
weight: positions 1-4 and 11-18 (in database sort order) weigh 50 g
(price 50, inside the filter interval [40, 60]) and the other 13 positions
weigh 100 g (price 100, outside it). -/
def paginationScenarioCandidates : List Product :=
  List.replicate 4 ⟨0, 50⟩ ++ List.replicate 6 ⟨0, 100⟩ ++
  List.replicate 8 ⟨0, 50⟩ ++ List.replicate 7 ⟨0, 100⟩

/-!
## PriceOracle

`goldPriceService.js`.  Configuration and network outcomes are explicit
inputs; `Date` timestamps are abstract naturals supplied by the
environment.
-/

/-- The numeric JSON payload shapes the parser probes: `data.price`,
`data.gold`, `data.rates.XAU`.  An absent or falsy `data` object behaves
like a payload with all fields absent. -/
structure ApiPayload where
  price : Option ℚ
  gold : Option ℚ
  ratesXAU : Option ℚ
deriving DecidableEq

/-- The cache owned by the service: `this.currentGoldPrice` and
`this.lastUpdateTime`. -/
structure OracleState where
  currentGoldPrice : ℚ
  lastUpdateTime : Option ℕ
deriving DecidableEq

/-- The constructor state: price 2000, no update timestamp. -/
def initialOracleState : OracleState := ⟨2000, none⟩

/-- The configuration consulted by the service: truthiness of
`GOLD_PRICE_API_URL`, whether `NODE_ENV` equals `production`, and truthiness of
`FIXER_API_KEY` / `EXCHANGE_API_KEY`. -/
structure OracleConfig where
  apiUrlConfigured : Bool
  nodeEnvProduction : Bool
  fixerApiKeyConfigured : Bool
  exchangeApiKeyConfigured : Bool
deriving DecidableEq

/-- One refresh attempt of the network environment: the current time and
the outcome of each source the code could contact (`none` models the HTTP
client throwing — timeout, connection failure or error status). -/
structure FetchEnv where
  now : ℕ
  primaryResp : Option ApiPayload
  fixerResp : Option ApiPayload
  exchangeResp : Option ApiPayload
deriving DecidableEq

/-- The primary-response parse chain of `fetchGoldPrice`:

```js
if (response.data && response.data.price) price = parseFloat(response.data.price);
else if (response.data && response.data.gold) price = parseFloat(response.data.gold);
else if (response.data && response.data.rates && response.data.rates.XAU)
  price = 1 / parseFloat(response.data.rates.XAU);
```

The branch taken is decided by truthiness of the raw field, and
`parseFloat` of a number is that number. -/
def parsePrimaryPrice (d : ApiPayload) : Option ℚ :=
  if jsTruthy d.price then d.price
  else if jsTruthy d.gold then d.gold
  else
    match d.ratesXAU with
    | some x => if x ≠ 0 then some (1 / x) else none
    | none => none

/-- The acceptance test `if (price && price > 0)` applied to the parse
result; `none` means the code throws `Invalid price data received from
API` and enters the catch block. -/
def acceptedPrimaryPrice (d : ApiPayload) : Option ℚ :=
  match parsePrimaryPrice d with
  | some q => if q ≠ 0 ∧ 0 < q then some q else none
  | none => none

/-- Whether the primary fetch succeeds end to end for a given environment. -/
def primaryFetchSucceeds (env : FetchEnv) : Bool :=
  match env.primaryResp with
  | some d => (acceptedPrimaryPrice d).isSome
  | none => false

/-- Outcome of `fetchFallbackPrice`: the returned value (`none` models the
function throwing) together with the number of fallback HTTP requests it
performed. -/
structure FallbackOutcome where
  price : Option ℚ
  attempts : ℕ
deriving DecidableEq

/-- The `for (const api of fallbackApis)` loop of `fetchFallbackPrice`: a
thrown request is skipped; a response whose `rates.XAU` field is truthy
returns `1 / parseFloat(response.data.rates.XAU)` immediately — with no
positivity check; any other response is skipped.  An exhausted list throws
(`All fallback APIs failed`, or `No fallback APIs configured`). -/
def runFallbackApis : List (Option ApiPayload) → FallbackOutcome
  | [] => ⟨none, 0⟩
  | none :: rest =>
    let o := runFallbackApis rest
    ⟨o.price, o.attempts + 1⟩
  | some d :: rest =>
    match d.ratesXAU with
    | some x =>
      if x ≠ 0 then ⟨some (1 / x), 1⟩
      else
        let o := runFallbackApis rest
        ⟨o.price, o.attempts + 1⟩
    | none =>
      let o := runFallbackApis rest
      ⟨o.price, o.attempts + 1⟩

/-- The `fallbackApis` array: the fixer URL when `FIXER_API_KEY` is set,
then the exchangerate URL when `EXCHANGE_API_KEY` is set, each paired with
the response the environment would give it. -/
def configuredFallbackResponses (cfg : OracleConfig) (env : FetchEnv) :
    List (Option ApiPayload) :=
  (if cfg.fixerApiKeyConfigured then [env.fixerResp] else []) ++
  (if cfg.exchangeApiKeyConfigured then [env.exchangeResp] else [])

/-- `fetchFallbackPrice`, including the production guard that throws when
`NODE_ENV` equals `production` and no `FIXER_API_KEY` is configured. -/
def fetchFallbackPrice (cfg : OracleConfig) (env : FetchEnv) : FallbackOutcome :=
  if cfg.nodeEnvProduction && !cfg.fixerApiKeyConfigured then ⟨none, 0⟩
  else runFallbackApis (configuredFallbackResponses cfg env)

/-- Result of one `fetchGoldPrice` call: the cache afterwards, the returned
value, whether the cache was written, whether the primary source was
contacted, and how many fallback requests went out.  The function is total:
every internal failure is absorbed, matching the final catch that returns
the cached price. -/
structure FetchResult where
  state : OracleState
  value : ℚ
  updated : Bool
  primaryRequested : Bool
  fallbackAttempts : ℕ
deriving DecidableEq

/-- The catch block of `fetchGoldPrice`: try `fetchFallbackPrice`; the
result is installed in the cache when truthy (`if (fallbackPrice)` — no
positivity check); on any fallback failure the cached price is kept and
returned. -/
def fetchGoldPriceCatch (cfg : OracleConfig) (env : FetchEnv) (s : OracleState) :
    FetchResult :=
  match (fetchFallbackPrice cfg env).price with
  | some fallbackPrice =>
    if fallbackPrice ≠ 0 then
      ⟨⟨fallbackPrice, some env.now⟩, fallbackPrice, true, true,
        (fetchFallbackPrice cfg env).attempts⟩
    else ⟨s, s.currentGoldPrice, false, true, (fetchFallbackPrice cfg env).attempts⟩
  | none => ⟨s, s.currentGoldPrice, false, true, (fetchFallbackPrice cfg env).attempts⟩

/-- `fetchGoldPrice`: skip all network activity when no API URL is
configured; otherwise contact the primary source, accept a parsed positive
price into the cache, and on any failure fall into the catch block. -/
def fetchGoldPrice (cfg : OracleConfig) (env : FetchEnv) (s : OracleState) :
    FetchResult :=
  if !cfg.apiUrlConfigured then ⟨s, s.currentGoldPrice, false, false, 0⟩
  else
    match env.primaryResp with
    | some d =>
      match acceptedPrimaryPrice d with
      | some q => ⟨⟨q, some env.now⟩, q, true, true, 0⟩
      | none => fetchGoldPriceCatch cfg env s
    | none => fetchGoldPriceCatch cfg env s

/-- A sequence of refresh attempts starting from the constructor state;
each attempt sees its own configuration and network environment. -/
def runRefreshes (events : List (OracleConfig × FetchEnv)) : OracleState :=
  events.foldl (fun s e => (fetchGoldPrice e.1 e.2 s).state) initialOracleState

/-!
## Scheduler model

`startPeriodicUpdates` registers a cron job on a ten-minute schedule whose
async callback awaits `this.fetchGoldPrice()` inside a try/catch and does
nothing else.  The callback consults no guard of any kind — `OracleState` carries no
in-flight flag and the callback body starts `fetchGoldPrice`
unconditionally — so every timer firing begins a fetch even while an
earlier one is still awaiting its network response.  The discrete-event
model below tracks the number of fetches in flight and the number of cache
writes; a `cronTick` event is one timer firing, a `completeFetch` event is
the resolution of one in-flight fetch with the network outcome it
observed. -/
structure RefreshSystem where
  cache : OracleState
  inFlight : ℕ
  cacheWrites : ℕ
deriving DecidableEq

/-- The scheduler state at process start. -/
def initialRefreshSystem : RefreshSystem := ⟨initialOracleState, 0, 0⟩

/-- One firing of the cron callback: a fetch starts unconditionally (the
source has no single-flight flag to consult). -/
def cronTick (sys : RefreshSystem) : RefreshSystem :=
  { sys with inFlight := sys.inFlight + 1 }

/-- Resolution of one in-flight `fetchGoldPrice` call against the current
cache; a successful attempt writes the cache. -/
def completeFetch (cfg : OracleConfig) (env : FetchEnv) (sys : RefreshSystem) :
    RefreshSystem :=
  if sys.inFlight = 0 then sys
  else
    let r := fetchGoldPrice cfg env sys.cache
    ⟨r.state, sys.inFlight - 1, sys.cacheWrites + (if r.updated then 1 else 0)⟩

/-!
## Theorems

Helper lemmas first, then one theorem (with witness or counterexample where
required) per claim.
-/

/-- Helper: `jsRound` is monotone. -/
theorem jsRound_mono {q r : ℚ} (h : q ≤ r) : jsRound q ≤ jsRound r :=
  Int.floor_le_floor (by linarith)

/-- Helper: `calculateProductPrice` respects `≤` of raw prices. -/
theorem calculateProductPrice_le_of_raw_le {c₁ c₂ p₁ p₂ w₁ w₂ : ℚ}
    (h : rawProductPrice c₁ p₁ w₁ ≤ rawProductPrice c₂ p₂ w₂) :
    calculateProductPrice c₁ p₁ w₁ ≤ calculateProductPrice c₂ p₂ w₂ := by
  unfold calculateProductPrice
  have hr : jsRound (rawProductPrice c₁ p₁ w₁ * 100) ≤
      jsRound (rawProductPrice c₂ p₂ w₂ * 100) := jsRound_mono (by linarith)
  have hcast : ((jsRound (rawProductPrice c₁ p₁ w₁ * 100) : ℚ)) ≤
      ((jsRound (rawProductPrice c₂ p₂ w₂ * 100) : ℚ)) := by exact_mod_cast hr
  linarith

/-- C1 counterexample: at commodity price 2000, popularity 9, weight 1000 g
(inputs satisfying every precondition of the claim), the code price differs
from the claimed formula with divisor `31.1034768`: the source divides by
`31.1035`, and the two rounded results disagree (643014.45 versus
643014.93). -/
theorem calculateProductPrice_ne_specDivisor :
    (0 : ℚ) < 2000 ∧ (0 : ℚ) ≤ 9 ∧ (9 : ℚ) ≤ 10 ∧ (0 : ℚ) < 1000 ∧
    calculateProductPrice 2000 9 1000 ≠ computePriceWithDivisor 31.1034768 2000 9 1000 := by
  refine ⟨by norm_num, by norm_num, by norm_num, by norm_num, ?_⟩
  norm_num [calculateProductPrice, rawProductPrice, computePriceWithDivisor, jsRound]

/-- C1 (amended): for every commodity price > 0, popularity score in
[0, 10] and weight > 0, the pricing function returns
`(popularityScore + 1) * weightGrams * (commodityPricePerOunce / 31.1035)`
rounded to 2 decimal places — the troy-ounce divisor in the source is the
shortened constant `31.1035`, not `31.1034768`. -/
theorem calculateProductPrice_formula (c p w : ℚ)
    (hc : 0 < c) (hp0 : 0 ≤ p) (hp1 : p ≤ 10) (hw : 0 < w) :
    calculateProductPrice c p w = computePriceWithDivisor 31.1035 c p w := rfl

/-- Witness for `calculateProductPrice_formula` at (2000, 9, 1000). -/
theorem calculateProductPrice_formula_witness :
    calculateProductPrice 2000 9 1000 = computePriceWithDivisor 31.1035 2000 9 1000 :=
  calculateProductPrice_formula 2000 9 1000 (by norm_num) (by norm_num)
    (by norm_num) (by norm_num)

/-- C7 counterexample: the pricing function at commodity price 2000.50,
popularity 8.5 and weight 5.2 g does not yield 3174.52. -/
theorem calculateProductPrice_known_value_ne :
    calculateProductPrice 2000.50 8.5 5.2 ≠ 3174.52 := by
  norm_num [calculateProductPrice, rawProductPrice, jsRound]

/-- C7 (amended): the pricing function applied to commodity price 2000.50,
popularity score 8.5 and weight 5.2 g yields 3177.29 to 2 decimal places;
the same value is obtained with the spec divisor `31.1034768`, so the
known-value check of the spec is wrong independently of the divisor
discrepancy. -/
theorem calculateProductPrice_known_value :
    calculateProductPrice 2000.50 8.5 5.2 = 3177.29 ∧
    computePriceWithDivisor 31.1034768 2000.50 8.5 5.2 = 3177.29 := by
  constructor
  · norm_num [calculateProductPrice, rawProductPrice, jsRound]
  · norm_num [computePriceWithDivisor, jsRound]

/-- C9 counterexample: the returned (rounded) price is not strictly
increasing in `popularityScore`: at commodity price 31.1035 and weight
0.001 g, popularity 0 and popularity 0.1 produce the same price 0, although
every precondition of the claim holds and the popularity strictly
increases. -/
theorem calculateProductPrice_not_strictMono :
    (0 : ℚ) < 31.1035 ∧ (0 : ℚ) ≤ 0 ∧ (1 / 10 : ℚ) ≤ 10 ∧ (0 : ℚ) < 1 / 1000 ∧
    (0 : ℚ) < 1 / 10 ∧
    calculateProductPrice 31.1035 0 (1 / 1000) =
      calculateProductPrice 31.1035 (1 / 10) (1 / 1000) := by
  refine ⟨by norm_num, le_refl 0, by norm_num, by norm_num, by norm_num, ?_⟩
  norm_num [calculateProductPrice, rawProductPrice, jsRound]

/-- C9 (amended): for fixed commodity price > 0, the raw (unrounded) price
is strictly increasing in popularity over [0, 10] and in weight over the
positive reals, and the returned price — which is rounded to 2 decimals —
is weakly increasing (non-decreasing) in each; strictness is lost to
rounding. -/
theorem calculateProductPrice_mono (c : ℚ) (hc : 0 < c) :
    (∀ p₁ p₂ w, 0 < w → p₁ < p₂ →
      rawProductPrice c p₁ w < rawProductPrice c p₂ w) ∧
    (∀ p w₁ w₂, 0 ≤ p → w₁ < w₂ →
      rawProductPrice c p w₁ < rawProductPrice c p w₂) ∧
    (∀ p₁ p₂ w, 0 < w → p₁ ≤ p₂ →
      calculateProductPrice c p₁ w ≤ calculateProductPrice c p₂ w) ∧
    (∀ p w₁ w₂, 0 ≤ p → w₁ ≤ w₂ →
      calculateProductPrice c p w₁ ≤ calculateProductPrice c p w₂) := by
  have hg : 0 < c / (31.1035 : ℚ) := by positivity
  have hrawp : ∀ p₁ p₂ w : ℚ, 0 < w → p₁ ≤ p₂ →
      rawProductPrice c p₁ w ≤ rawProductPrice c p₂ w := by
    intro p₁ p₂ w hw hp
    unfold rawProductPrice
    nlinarith [mul_nonneg (le_of_lt hw) (le_of_lt hg)]
  have hraww : ∀ (p w₁ w₂ : ℚ), 0 ≤ p → w₁ ≤ w₂ →
      rawProductPrice c p w₁ ≤ rawProductPrice c p w₂ := by
    intro p w₁ w₂ hp hw
    unfold rawProductPrice
    nlinarith [mul_pos (show (0:ℚ) < p + 1 by linarith) hg]
  refine ⟨?_, ?_, ?_, ?_⟩
  · intro p₁ p₂ w hw hp
    unfold rawProductPrice
    nlinarith [mul_pos hw hg]
  · intro p w₁ w₂ hp hw
    unfold rawProductPrice
    nlinarith [mul_pos (show (0:ℚ) < p + 1 by linarith) hg]
  · intro p₁ p₂ w hw hp
    exact calculateProductPrice_le_of_raw_le (hrawp p₁ p₂ w hw hp)
  · intro p w₁ w₂ hp hw
    exact calculateProductPrice_le_of_raw_le (hraww p w₁ w₂ hp hw)

/-- Witness for `calculateProductPrice_mono` at commodity price 1,
popularity 0 versus 1, weight 1. -/
theorem calculateProductPrice_mono_witness :
    calculateProductPrice 1 0 1 ≤ calculateProductPrice 1 1 1 :=
  ((calculateProductPrice_mono 1 (by norm_num)).2.2.1) 0 1 1 (by norm_num) (by norm_num)

/-- C2 (code bug): with 25 candidate products of which exactly 12 have
computed price inside the active filter interval [40, 60], a request for
page 1 with page size 10 should — per the spec — return 10 of those 12 and
report total 12 and pages 2.  The code instead applies the database
`range(0, 9)` before computing any price and then filters only that page:
it returns the 4 in-range products among the first 10 candidates and
reports total 4 and pages 1. -/
theorem getProducts_price_filter_pagination_bug :
    paginationScenarioCandidates.length = 25 ∧
    ((paginationScenarioCandidates.map (decorateOne 31.1035)).filter
        (fun dp => keepProduct (some 40) (some 60) dp.calculatedPrice)).length = 12 ∧
    (getProducts 31.1035 paginationScenarioCandidates 1 10 (some 40) (some 60)).products.length = 4 ∧
    (getProducts 31.1035 paginationScenarioCandidates 1 10 (some 40) (some 60)).total = 4 ∧
    (getProducts 31.1035 paginationScenarioCandidates 1 10 (some 40) (some 60)).pages = 1 := by
  refine ⟨by norm_num [paginationScenarioCandidates], ?_, ?_, ?_, ?_⟩ <;>
    norm_num [paginationScenarioCandidates, getProducts, applyPriceFilterStage,
      priceFilterActive, jsTruthy, keepProduct, belowMinPrice, aboveMaxPrice,
      decorateOne, calculateProductPrice, rawProductPrice, jsRound,
      List.replicate, List.filter]

/-- C10: in the listing price filter a bound equal to 0 is treated as
absent: a zero `minPrice` or `maxPrice` never excludes any product — the
zero bound is skipped by the truthiness guards, both in the per-product
checks and in the `minPrice || maxPrice` gate — so filtering with only a
zero bound returns the input list unchanged, and a zero bound next to an
arbitrary other bound behaves exactly like an absent bound. -/
theorem applyPriceFilterStage_zero_bound (ps : List DecoratedProduct) :
    applyPriceFilterStage (some 0) none ps = ps ∧
    applyPriceFilterStage none (some 0) ps = ps ∧
    applyPriceFilterStage (some 0) (some 0) ps = ps ∧
    (∀ maxPrice, applyPriceFilterStage (some 0) maxPrice ps =
      applyPriceFilterStage none maxPrice ps) ∧
    (∀ minPrice, applyPriceFilterStage minPrice (some 0) ps =
      applyPriceFilterStage minPrice none ps) := by
  refine ⟨?_, ?_, ?_, ?_, ?_⟩
  · simp [applyPriceFilterStage, priceFilterActive, jsTruthy]
  · simp [applyPriceFilterStage, priceFilterActive, jsTruthy]
  · simp [applyPriceFilterStage, priceFilterActive, jsTruthy]
  · intro maxPrice
    simp [applyPriceFilterStage, priceFilterActive, jsTruthy, keepProduct, belowMinPrice]
  · intro minPrice
    simp [applyPriceFilterStage, priceFilterActive, jsTruthy, keepProduct, aboveMaxPrice]

/-- Helper: an accepted primary price is positive. -/
theorem acceptedPrimaryPrice_pos {d : ApiPayload} {q : ℚ}
    (h : acceptedPrimaryPrice d = some q) : 0 < q := by
  unfold acceptedPrimaryPrice at h
  split at h
  · rename_i q' _
    split at h
    · rename_i hcond
      injection h with h
      exact h ▸ hcond.2
    · exact Option.noConfusion h
  · exact Option.noConfusion h

/-- Helper: the catch block never writes 0 into the cache. -/
theorem fetchGoldPriceCatch_state_ne_zero (cfg : OracleConfig) (env : FetchEnv)
    (s : OracleState) (hs : s.currentGoldPrice ≠ 0) :
    (fetchGoldPriceCatch cfg env s).state.currentGoldPrice ≠ 0 := by
  unfold fetchGoldPriceCatch
  split
  · split
    · next h => simpa using h
    · simpa using hs
  · simpa using hs

/-- Helper: one refresh attempt never writes 0 into the cache. -/
theorem fetchGoldPrice_state_ne_zero (cfg : OracleConfig) (env : FetchEnv)
    (s : OracleState) (hs : s.currentGoldPrice ≠ 0) :
    (fetchGoldPrice cfg env s).state.currentGoldPrice ≠ 0 := by
  unfold fetchGoldPrice
  split
  · simpa using hs
  · cases hresp : env.primaryResp with
    | none =>
      simp only [hresp]
      exact fetchGoldPriceCatch_state_ne_zero cfg env s hs
    | some d =>
      simp only [hresp]
      cases hacc : acceptedPrimaryPrice d with
      | none =>
        simp only [hacc]
        exact fetchGoldPriceCatch_state_ne_zero cfg env s hs
      | some q =>
        simp only [hacc]
        simpa using (acceptedPrimaryPrice_pos hacc).ne'

/-- C3 counterexample: one refresh attempt in which the primary request
throws and the configured fixer fallback answers with `rates.XAU = -5`
drives the cached price to `-1/5`: the secondary value is installed without
a positivity check, so the cached price is not always positive. -/
theorem runRefreshes_negative_price :
    (runRefreshes [(⟨true, false, true, false⟩, ⟨0, none, some ⟨none, none, some (-5)⟩, none⟩)]).currentGoldPrice < 0 := by
  norm_num [runRefreshes, initialOracleState, fetchGoldPrice, fetchGoldPriceCatch,
    fetchFallbackPrice, configuredFallbackResponses, runFallbackApis]

/-- C3 (amended): after any sequence of refresh attempts with arbitrary
upstream payloads, the cached `currentGoldPrice` is always defined and
nonzero — but not necessarily positive: a secondary-source value is
accepted into the cache whenever it is a truthy (nonzero) number, with no
positivity check, so a negative inverse rate from a secondary source can
enter the cache. -/
theorem runRefreshes_currentGoldPrice_ne_zero
    (events : List (OracleConfig × FetchEnv)) :
    (runRefreshes events).currentGoldPrice ≠ 0 := by
  have h : ∀ (evs : List (OracleConfig × FetchEnv)) (s : OracleState),
      s.currentGoldPrice ≠ 0 →
      (evs.foldl (fun s e => (fetchGoldPrice e.1 e.2 s).state) s).currentGoldPrice ≠ 0 := by
    intro evs
    induction evs with
    | nil => intro s hs; exact hs
    | cons e rest ih =>
      intro s hs
      exact ih _ (fetchGoldPrice_state_ne_zero e.1 e.2 s hs)
  exact h events initialOracleState (by norm_num [initialOracleState])

/-- C4: when the primary fetch does not succeed and `fetchFallbackPrice`
throws (every configured secondary failed, or none is usable), the refresh
returns normally with the cached value and leaves the whole cache — both
`currentGoldPrice` and `lastUpdateTime` — exactly as it was. -/
theorem fetchGoldPrice_all_sources_fail (cfg : OracleConfig) (env : FetchEnv)
    (s : OracleState)
    (hp : primaryFetchSucceeds env = false)
    (hf : (fetchFallbackPrice cfg env).price = none) :
    (fetchGoldPrice cfg env s).state = s ∧
    (fetchGoldPrice cfg env s).value = s.currentGoldPrice ∧
    (fetchGoldPrice cfg env s).updated = false := by
  have hcatch : fetchGoldPriceCatch cfg env s =
      ⟨s, s.currentGoldPrice, false, true, (fetchFallbackPrice cfg env).attempts⟩ := by
    unfold fetchGoldPriceCatch
    split
    · next heq => rw [hf] at heq; exact Option.noConfusion heq
    · rfl
  unfold fetchGoldPrice
  split
  · exact ⟨rfl, rfl, rfl⟩
  · cases hresp : env.primaryResp with
    | none =>
      simp [hresp, hcatch]
    | some d =>
      cases hacc : acceptedPrimaryPrice d with
      | none =>
        simp [hresp, hacc, hcatch]
      | some q =>
        exfalso
        unfold primaryFetchSucceeds at hp
        rw [hresp] at hp
        simp [hacc] at hp

/-- Witness for `fetchGoldPrice_all_sources_fail`: API URL configured, the
primary returns an empty payload, no fallback key configured. -/
theorem fetchGoldPrice_all_sources_fail_witness :
    (fetchGoldPrice ⟨true, false, false, false⟩ ⟨7, some ⟨none, none, none⟩, none, none⟩ initialOracleState).state = initialOracleState ∧
    (fetchGoldPrice ⟨true, false, false, false⟩ ⟨7, some ⟨none, none, none⟩, none, none⟩ initialOracleState).value = initialOracleState.currentGoldPrice ∧
    (fetchGoldPrice ⟨true, false, false, false⟩ ⟨7, some ⟨none, none, none⟩, none, none⟩ initialOracleState).updated = false :=
  fetchGoldPrice_all_sources_fail _ _ _ rfl rfl

/-- C5 counterexample: two timer firings while no fetch has yet resolved
leave two refreshes in flight — the second is not skipped — and when both
then resolve with successful payloads the overlapping pair produces two
cache writes, not at most one. -/
theorem cronTick_overlap_two_writes :
    (cronTick (cronTick initialRefreshSystem)).inFlight = 2 ∧
    (completeFetch ⟨true, false, false, false⟩ ⟨2, some ⟨some 2200, none, none⟩, none, none⟩
      (completeFetch ⟨true, false, false, false⟩ ⟨1, some ⟨some 2100, none, none⟩, none, none⟩
        (cronTick (cronTick initialRefreshSystem)))).cacheWrites = 2 := by
  constructor
  · rfl
  · norm_num [completeFetch, cronTick, initialRefreshSystem, initialOracleState,
      fetchGoldPrice, acceptedPrimaryPrice, parsePrimaryPrice, jsTruthy]

/-- C5 (amended): the scheduled refresh callback consults no single-flight
guard: every timer firing starts a refresh unconditionally, increasing the
number of in-flight fetches by one whatever their current number, and the
firing itself neither touches the cache nor skips. -/
theorem cronTick_always_starts_fetch (sys : RefreshSystem) :
    (cronTick sys).inFlight = sys.inFlight + 1 ∧
    (cronTick sys).cache = sys.cache ∧
    (cronTick sys).cacheWrites = sys.cacheWrites :=
  ⟨rfl, rfl, rfl⟩

/-- C6 counterexample: in the payload `{price: -5, gold: 2000}` the first
variant is present but does not parse to a positive number; the parser
still selects it, the acceptance check fails, and the positive later
variant 2000 is never accepted — the primary fetch falls into the catch
block instead. -/
theorem parsePrimaryPrice_no_fallthrough :
    parsePrimaryPrice ⟨some (-5), some 2000, none⟩ = some (-5) ∧
    acceptedPrimaryPrice ⟨some (-5), some 2000, none⟩ = none ∧
    acceptedPrimaryPrice ⟨some (-5), some 2000, none⟩ ≠ some 2000 := by
  have h1 : parsePrimaryPrice ⟨some (-5), some 2000, none⟩ = some (-5) := by
    norm_num [parsePrimaryPrice, jsTruthy]
  have h2 : acceptedPrimaryPrice ⟨some (-5), some 2000, none⟩ = none := by
    norm_num [acceptedPrimaryPrice, parsePrimaryPrice, jsTruthy]
  exact ⟨h1, h2, by rw [h2]; exact fun hcontra => Option.noConfusion hcontra⟩

/-- C6 (amended): the parser probes the variants in the fixed order
`price`, `gold`, `rates.XAU` but selects the first field that is present
and truthy, not the first that parses to a positive number; the selected
value is then accepted only if positive, and when it is not, later
variants are not consulted — the primary fetch fails over to the secondary
chain instead. -/
theorem parsePrimaryPrice_first_truthy (g r : Option ℚ) (q : ℚ) (hq : q ≠ 0) :
    parsePrimaryPrice ⟨some q, g, r⟩ = some q ∧
    acceptedPrimaryPrice ⟨some q, g, r⟩ = if 0 < q then some q else none := by
  constructor
  · simp [parsePrimaryPrice, jsTruthy, hq]
  · simp [acceptedPrimaryPrice, parsePrimaryPrice, jsTruthy, hq]

/-- Witness for `parsePrimaryPrice_first_truthy` at the payload
`{price: -5, gold: 2000}`. -/
theorem parsePrimaryPrice_first_truthy_witness :
    parsePrimaryPrice ⟨some (-5), some 2000, none⟩ = some (-5) ∧
    acceptedPrimaryPrice ⟨some (-5), some 2000, none⟩ =
      if (0 : ℚ) < -5 then some (-5) else none :=
  parsePrimaryPrice_first_truthy (some 2000) none (-5) (by norm_num)

/-- C8: when no primary price-source URL is configured, a refresh performs
no network request at all — the primary source is not contacted and zero
fallback requests are made — and the cache (price and timestamp) is
returned unchanged. -/
theorem fetchGoldPrice_unconfigured (cfg : OracleConfig) (env : FetchEnv)
    (s : OracleState) (h : cfg.apiUrlConfigured = false) :
    fetchGoldPrice cfg env s = ⟨s, s.currentGoldPrice, false, false, 0⟩ := by
  unfold fetchGoldPrice
  simp [h]

/-- Witness for `fetchGoldPrice_unconfigured` at a concrete unconfigured
state. -/
theorem fetchGoldPrice_unconfigured_witness :
    fetchGoldPrice ⟨false, true, true, true⟩ ⟨3, some ⟨some 2500, none, none⟩, none, none⟩ initialOracleState =
      ⟨initialOracleState, 2000, false, false, 0⟩ :=
  fetchGoldPrice_unconfigured _ _ _ rfl

end Renart
